import Mathlib

/-!
Shallow embedding of the eye-tracking session lifecycle and gaze-streaming
subsystem of the EyeReadDemo frontend (the PictureBook component found in
frontend/src/components, sharing a file with ErrorMessage).

The embedding follows the JavaScript source:
  * the gaze poller (startGazeDataPolling / stopGazeDataPolling and the
    per-tick async callback) is modelled as a small-step transition system
    over an explicit poller state, with environment events for interval
    ticks and network responses;
  * the presentation coordinator (handleExitFullscreen, the Escape keydown
    handler, the fullscreenchange handler) is modelled on top of the poller
    state, with the suspension point of handleExitFullscreen at the awaited
    stop request made explicit (a begin step and a resume step);
  * handleEnterEyeTrackingMode is a pure function of the outcomes of the
    remote calls it awaits (connect, set-image, start, requestFullscreen),
    returning the component state and the effects it produced.
-/

/-- A gaze position as delivered by the gaze-data endpoint
(`result.current_position` with numeric fields x and y). -/
structure GazeSample where
  x : Int
  y : Int
  deriving DecidableEq, Repr

/-- Outcome of one gaze-data fetch issued by the poller's tick callback:
either the fetch (or its JSON parse) rejected, or a parsed body with a
success flag and an optional current_position. -/
inductive GazeResult where
  | fetchError
  | response (success : Bool) (current_position : Option GazeSample)
  deriving DecidableEq, Repr

/-- State owned by the gaze poller: the interval handle stored in
`gazeIntervalRef`, the set of interval timers that have been created by
setInterval and not cleared by clearInterval (the platform's timer table),
the fetches currently in flight, and the retained `gazeData` sample.
`nextIntervalId` and `nextReqId` are fresh-name counters. -/
structure PollState where
  gazeIntervalRef : Option Nat
  liveIntervals : List Nat
  inFlight : List Nat
  gazeData : Option GazeSample
  nextIntervalId : Nat
  nextReqId : Nat
  deriving DecidableEq, Repr

/-- The initial poller state: no interval, no in-flight fetch, no sample. -/
def pollInit : PollState :=
  { gazeIntervalRef := none, liveIntervals := [], inFlight := [],
    gazeData := none, nextIntervalId := 0, nextReqId := 0 }

/-- `startGazeDataPolling` from the source: unconditionally creates a new
interval with setInterval and assigns the handle to `gazeIntervalRef.current`,
overwriting (without clearing) any handle already stored there. -/
def startGazeDataPolling (s : PollState) : PollState :=
  { s with gazeIntervalRef := some s.nextIntervalId,
           liveIntervals := s.nextIntervalId :: s.liveIntervals,
           nextIntervalId := s.nextIntervalId + 1 }

/-- `stopGazeDataPolling` from the source: if `gazeIntervalRef.current` is
set, clearInterval it and null the ref; in every case `setGazeData(null)`. -/
def stopGazeDataPolling (s : PollState) : PollState :=
  match s.gazeIntervalRef with
  | some iid =>
      { s with liveIntervals := s.liveIntervals.erase iid,
               gazeIntervalRef := none,
               gazeData := none }
  | none => { s with gazeData := none }

/-- One tick of a live interval fires the poller's async callback, which
immediately issues a gaze-data fetch (no check of any in-flight request). -/
def pollTickEffect (s : PollState) : PollState :=
  { s with inFlight := s.nextReqId :: s.inFlight,
           nextReqId := s.nextReqId + 1 }

/-- The tail of the tick callback, run when its fetch settles:
`if (result.success && result.current_position) setGazeData(...)`;
a fetch error is only logged. -/
def applyGazeResult (g : Option GazeSample) : GazeResult → Option GazeSample
  | GazeResult.fetchError => g
  | GazeResult.response success pos =>
      if success then
        match pos with
        | some p => some p
        | none => g
      else g

/-- Environment and program events driving the poller subsystem. -/
inductive PollEv where
  | start
  | stop
  | tick (iid : Nat)
  | resp (rid : Nat) (r : GazeResult)
  deriving DecidableEq, Repr

/-- Small-step semantics of the poller: `tick` is enabled only for a live
(not cleared) interval, `resp` only for an in-flight fetch. The response
handler applies the sample unconditionally — there is no check that polling
is still active and no comparison of tick indices. -/
def pollStep (s : PollState) : PollEv → Option PollState
  | PollEv.start => some (startGazeDataPolling s)
  | PollEv.stop => some (stopGazeDataPolling s)
  | PollEv.tick iid =>
      if iid ∈ s.liveIntervals then some (pollTickEffect s) else none
  | PollEv.resp rid r =>
      if rid ∈ s.inFlight then
        some { s with inFlight := s.inFlight.erase rid,
                      gazeData := applyGazeResult s.gazeData r }
      else none

/-- Run a sequence of poller events. -/
def pollRun (s : PollState) : List PollEv → Option PollState
  | [] => some s
  | e :: es => (pollStep s e).bind (fun s1 => pollRun s1 es)

theorem stopGazeDataPolling_gazeIntervalRef (s : PollState) :
    (stopGazeDataPolling s).gazeIntervalRef = none := by
  cases h : s.gazeIntervalRef <;> simp [stopGazeDataPolling, h]

theorem stopGazeDataPolling_gazeData (s : PollState) :
    (stopGazeDataPolling s).gazeData = none := by
  cases h : s.gazeIntervalRef <;> simp [stopGazeDataPolling, h]

theorem stopGazeDataPolling_inFlight (s : PollState) :
    (stopGazeDataPolling s).inFlight = s.inFlight := by
  cases h : s.gazeIntervalRef <;> simp [stopGazeDataPolling, h]

/-- Component-level state of the presentation coordinator: the poller state
plus the two React flags `isFullscreenMode` and `isEyeTrackingActive`, the
platform's `document.fullscreenElement` modelled as a Bool, the number of
stop requests issued to the eye-tracking/stop endpoint, the number of
`handleExitFullscreen` invocations currently suspended at the awaited stop
request, and the number of `document.exitFullscreen()` calls issued. -/
structure CoordState where
  poll : PollState
  isFullscreenMode : Bool
  isEyeTrackingActive : Bool
  browserFullscreen : Bool
  stopRequests : Nat
  pendingExits : Nat
  nativeExitCalls : Nat
  deriving DecidableEq, Repr

/-- The synchronous prefix of `handleExitFullscreen` from the source, run up
to its first suspension point: `stopGazeDataPolling()`,
`setIsEyeTrackingActive(false)`, then initiate the fetch of the stop
endpoint (the invocation then suspends awaiting that fetch). -/
def handleExitFullscreenBegin (s : CoordState) : CoordState :=
  { s with poll := stopGazeDataPolling s.poll,
           isEyeTrackingActive := false,
           stopRequests := s.stopRequests + 1,
           pendingExits := s.pendingExits + 1 }

/-- The continuation of `handleExitFullscreen`, run when its awaited stop
request settles (fulfilled or rejected — the catch only logs):
`setIsFullscreenMode(false)`, then `document.exitFullscreen()` if the
browser is still in full-screen. The platform exit is modelled as taking
effect immediately. -/
def handleExitFullscreenResume (s : CoordState) : CoordState :=
  { s with isFullscreenMode := false,
           nativeExitCalls :=
             if s.browserFullscreen then s.nativeExitCalls + 1
             else s.nativeExitCalls,
           browserFullscreen := false,
           pendingExits := s.pendingExits - 1 }

/-- The `fullscreenchange` handler from the source, run after the platform
has changed `document.fullscreenElement` to `fullscreenElement`:
`if (!document.fullscreenElement && isFullscreenMode) setIsFullscreenMode(false)`
— and nothing else. -/
def handleFullscreenChange (fullscreenElement : Bool) (s : CoordState) :
    CoordState :=
  { s with browserFullscreen := fullscreenElement,
           isFullscreenMode :=
             if !fullscreenElement && s.isFullscreenMode then false
             else s.isFullscreenMode }

/-- Events driving the coordinator: an Escape keydown, a platform
fullscreenchange notification carrying the new value of
`document.fullscreenElement`, the settling of a pending stop request, and
the poller's own environment events. -/
inductive CoordEv where
  | escapeKey
  | fullscreenChange (fullscreenElement : Bool)
  | stopSettled
  | pollTick (iid : Nat)
  | pollResp (rid : Nat) (r : GazeResult)
  deriving DecidableEq, Repr

/-- Small-step semantics of the coordinator. The Escape handler guards on
`isFullscreenMode` (as in the source keydown listener) and then runs the
synchronous prefix of `handleExitFullscreen`; `stopSettled` is enabled only
while an invocation is suspended; poller events act on the poller state. -/
def coordStep (s : CoordState) : CoordEv → Option CoordState
  | CoordEv.escapeKey =>
      some (if s.isFullscreenMode then handleExitFullscreenBegin s else s)
  | CoordEv.fullscreenChange b => some (handleFullscreenChange b s)
  | CoordEv.stopSettled =>
      match s.pendingExits with
      | 0 => none
      | _ + 1 => some (handleExitFullscreenResume s)
  | CoordEv.pollTick iid =>
      (pollStep s.poll (PollEv.tick iid)).map (fun p => { s with poll := p })
  | CoordEv.pollResp rid r =>
      (pollStep s.poll (PollEv.resp rid r)).map (fun p => { s with poll := p })

/-- Run a sequence of coordinator events. -/
def coordRun (s : CoordState) : List CoordEv → Option CoordState
  | [] => some s
  | e :: es => (coordStep s e).bind (fun s1 => coordRun s1 es)

/-- The coordinator state immediately after a fully successful activation of
eye-tracking mode: both flags set, the browser in full-screen, and the
poller started (interval 0 live, handle stored). -/
def trackingState : CoordState :=
  { poll := startGazeDataPolling pollInit,
    isFullscreenMode := true,
    isEyeTrackingActive := true,
    browserFullscreen := true,
    stopRequests := 0,
    pendingExits := 0,
    nativeExitCalls := 0 }

/-- Outcome of one awaited remote call inside `handleEnterEyeTrackingMode`:
either the fetch (or its JSON parse) rejected with an error message, or a
parsed response body with a success flag and an optional message field. -/
inductive CallOutcome where
  | netError (msg : String)
  | resp (success : Bool) (message : Option String)
  deriving DecidableEq, Repr

/-- Whether the outcome is a parsed response with `success: true`. -/
def CallOutcome.isSuccess : CallOutcome → Bool
  | CallOutcome.netError _ => false
  | CallOutcome.resp b _ => b

/-- Whether the outcome is a parsed response (fetch and parse resolved). -/
def CallOutcome.isResp : CallOutcome → Bool
  | CallOutcome.netError _ => false
  | CallOutcome.resp _ _ => true

/-- The environment of one run of `handleEnterEyeTrackingMode`: the outcomes
of the connect, set-image and start requests, whether
`document.documentElement.requestFullscreen` exists, and (if issued) whether
the requestFullscreen promise rejected, carrying its message. -/
structure EnterEnv where
  connect : CallOutcome
  setImage : CallOutcome
  start : CallOutcome
  fsApiAvailable : Bool
  fsRequestError : Option String
  deriving DecidableEq, Repr

/-- Observable result of one run of `handleEnterEyeTrackingMode`: which
requests were issued, whether the native requestFullscreen call was made,
the alert text if `alert(...)` ran, and the component flags and poller
start decided by the run. -/
structure EnterResult where
  connectCalled : Bool
  setImageCalled : Bool
  startCalled : Bool
  nativeFsRequested : Bool
  alerted : Option String
  isFullscreenMode : Bool
  isEyeTrackingActive : Bool
  pollerStarted : Bool
  deriving DecidableEq, Repr

/-- JavaScript `m || d` on an optional string field: the default is used when
the field is absent or the empty string. -/
def jsOr (m : Option String) (d : String) : String :=
  match m with
  | some s => if s = "" then d else s
  | none => d

/-- The catch block of `handleEnterEyeTrackingMode`:
`alert(...)` with the thrown message and `setIsFullscreenMode(true)`;
`setIsEyeTrackingActive` is never reached and the poller is never started. -/
def enterFailure (setImageCalled startCalled nativeFsRequested : Bool)
    (msg : String) : EnterResult :=
  { connectCalled := true,
    setImageCalled := setImageCalled,
    startCalled := startCalled,
    nativeFsRequested := nativeFsRequested,
    alerted := some ("Failed to start Eye-Tracking Mode: " ++ msg),
    isFullscreenMode := true,
    isEyeTrackingActive := false,
    pollerStarted := false }

/-- The tail of the successful path of `handleEnterEyeTrackingMode`:
`setIsFullscreenMode(true)`, `setIsEyeTrackingActive(true)`,
`startGazeDataPolling()`; no alert. -/
def enterSuccess (nativeFsRequested : Bool) : EnterResult :=
  { connectCalled := true,
    setImageCalled := true,
    startCalled := true,
    nativeFsRequested := nativeFsRequested,
    alerted := none,
    isFullscreenMode := true,
    isEyeTrackingActive := true,
    pollerStarted := true }

/-- `handleEnterEyeTrackingMode` from the source, as a function of the
outcomes of its awaited calls. Control flow mirrors the try block: a
connect response with `success: false` throws; the set-image response is
parsed but its success flag is never inspected; a start response with
`success: false` throws; `requestFullscreen` is issued only after all of
that, and only if the API exists; any throw lands in the catch block. -/
def handleEnterEyeTrackingMode (env : EnterEnv) : EnterResult :=
  match env.connect with
  | CallOutcome.netError m => enterFailure false false false m
  | CallOutcome.resp false m =>
      enterFailure false false false (jsOr m "Failed to connect to eye tracker")
  | CallOutcome.resp true _ =>
      match env.setImage with
      | CallOutcome.netError m => enterFailure true false false m
      | CallOutcome.resp _ _ =>
          match env.start with
          | CallOutcome.netError m => enterFailure true true false m
          | CallOutcome.resp false m =>
              enterFailure true true false (jsOr m "Failed to start eye tracking")
          | CallOutcome.resp true _ =>
              if env.fsApiAvailable then
                match env.fsRequestError with
                | some m => enterFailure true true true m
                | none => enterSuccess true
              else enterSuccess false

/-- The gaze-indicator fragment of the full-screen render:
`isEyeTrackingActive && gazeData && <div class=gaze-indicator style=...>`
— the marker is produced, at the sample's coordinates, exactly when the
tracking flag is set and a sample exists. -/
def renderGazeIndicator (isEyeTrackingActive : Bool)
    (gazeData : Option GazeSample) : Option GazeSample :=
  if isEyeTrackingActive then gazeData else none

/-- C1 counterexample: from the tracking state, the platform fires a
full-screen-change event showing full-screen no longer active; contrary to
the claim, the teardown path does not run — the interval handle is still
set, the interval is still live, no stop request has been issued, the
tracking flag is still set, and the poller even goes on applying samples
(the subsequent tick and successful response update gazeData). Only the
internal full-screen flag was cleared. -/
theorem c1_fullscreenChange_no_teardown_cex :
    Option.map
      (fun s => (s.isFullscreenMode, s.isEyeTrackingActive, s.stopRequests,
                 s.poll.gazeIntervalRef, s.poll.liveIntervals, s.poll.gazeData))
      (coordRun trackingState
        [CoordEv.fullscreenChange false, CoordEv.pollTick 0,
         CoordEv.pollResp 0 (GazeResult.response true (some ⟨3, 4⟩))])
    = some (false, true, 0, some 0, [0], some ⟨3, 4⟩) := rfl

/-- C1 (amended): when the platform fires a full-screen-change event, the
handler only reconciles the internal full-screen flag (clearing it when the
platform reports full-screen inactive while the flag is set); it does not
run the teardown path: the poller state, the count of stop requests and the
tracking flag are all left unchanged. -/
theorem c1_fullscreenChange_only_clears_flag (s : CoordState) (b : Bool) :
    coordStep s (CoordEv.fullscreenChange b) = some (handleFullscreenChange b s) ∧
    (handleFullscreenChange b s).poll = s.poll ∧
    (handleFullscreenChange b s).stopRequests = s.stopRequests ∧
    (handleFullscreenChange b s).isEyeTrackingActive = s.isEyeTrackingActive ∧
    (handleFullscreenChange b s).isFullscreenMode = (s.isFullscreenMode && b) := by
  refine ⟨rfl, rfl, rfl, rfl, ?_⟩
  cases b <;> cases h : s.isFullscreenMode <;> simp [handleFullscreenChange, h]

/-- C2 counterexample: the poller is started, a tick issues a fetch, the
poller is stopped (the stop has returned: the interval is cleared and
gazeData reset), and then the in-flight fetch resolves successfully —
contrary to the claim its result is not discarded: the sample is applied to
the overlay state after the stop. -/
theorem c2_sample_applied_after_stop_cex :
    Option.map PollState.gazeData
      (pollRun pollInit
        [PollEv.start, PollEv.tick 0, PollEv.stop,
         PollEv.resp 0 (GazeResult.response true (some ⟨5, 7⟩))])
    = some (some ⟨5, 7⟩) := by decide

/-- C2 (amended): when `stopGazeDataPolling` returns, the retained sample
has been reset to none and the interval handle cleared, so no new tick of
that interval will fire; but a request that was in flight at the stop is
not discarded — it remains in flight, and if it later resolves successfully
with a position, that sample is still applied to the overlay state. -/
theorem c2_inflight_survives_stop (s : PollState) (rid : Nat) (p : GazeSample)
    (h : rid ∈ s.inFlight) :
    (stopGazeDataPolling s).gazeData = none ∧
    (stopGazeDataPolling s).gazeIntervalRef = none ∧
    Option.map PollState.gazeData
      (pollStep (stopGazeDataPolling s)
        (PollEv.resp rid (GazeResult.response true (some p))))
    = some (some p) := by
  refine ⟨stopGazeDataPolling_gazeData s, stopGazeDataPolling_gazeIntervalRef s, ?_⟩
  have hm : rid ∈ (stopGazeDataPolling s).inFlight := by
    rw [stopGazeDataPolling_inFlight]; exact h
  simp [pollStep, hm, applyGazeResult]

/-- C2 witness: a concrete state with request 0 in flight. -/
theorem c2_inflight_survives_stop_witness :
    (stopGazeDataPolling { pollInit with inFlight := [0] }).gazeData = none ∧
    (stopGazeDataPolling { pollInit with inFlight := [0] }).gazeIntervalRef = none ∧
    Option.map PollState.gazeData
      (pollStep (stopGazeDataPolling { pollInit with inFlight := [0] })
        (PollEv.resp 0 (GazeResult.response true (some ⟨5, 7⟩))))
    = some (some ⟨5, 7⟩) :=
  c2_inflight_survives_stop { pollInit with inFlight := [0] } 0 ⟨5, 7⟩ (by decide)

/-- C3 counterexample: from the tracking state, two teardown triggers
arrive (Escape twice, the second while the first invocation is still
suspended at its awaited stop request, the full-screen flag still set) —
contrary to the claim the stop sequence does not execute exactly once: two
stop requests are issued. -/
theorem c3_duplicate_teardown_cex :
    Option.map CoordState.stopRequests
      (coordRun trackingState [CoordEv.escapeKey, CoordEv.escapeKey])
    = some 2 := by decide

/-- C3 (amended): there is no re-entrancy guard on teardown — every trigger
that observes the full-screen flag still set executes the full stop
sequence, so two overlapping triggers issue two stop requests; the final
state once both pending invocations settle is nevertheless idle: interval
handle cleared, no retained sample, tracking flag off, full-screen flag
off, and no invocation left pending. -/
theorem c3_teardown_once_per_trigger (s : CoordState)
    (h : s.isFullscreenMode = true) :
    Option.map
      (fun t => (t.stopRequests, t.poll.gazeIntervalRef, t.poll.gazeData,
                 t.isEyeTrackingActive, t.isFullscreenMode, t.pendingExits))
      (coordRun s
        [CoordEv.escapeKey, CoordEv.escapeKey,
         CoordEv.stopSettled, CoordEv.stopSettled])
    = some (s.stopRequests + 2, none, none, false, false, s.pendingExits) := by
  simp [coordRun, coordStep, h, handleExitFullscreenBegin,
    handleExitFullscreenResume, stopGazeDataPolling_gazeIntervalRef,
    stopGazeDataPolling_gazeData]

/-- C3 witness: the tracking state satisfies the full-screen hypothesis. -/
theorem c3_teardown_once_per_trigger_witness :
    Option.map
      (fun t => (t.stopRequests, t.poll.gazeIntervalRef, t.poll.gazeData,
                 t.isEyeTrackingActive, t.isFullscreenMode, t.pendingExits))
      (coordRun trackingState
        [CoordEv.escapeKey, CoordEv.escapeKey,
         CoordEv.stopSettled, CoordEv.stopSettled])
    = some (trackingState.stopRequests + 2, none, none, false, false,
            trackingState.pendingExits) :=
  c3_teardown_once_per_trigger trackingState (by decide)

/-- C4 counterexample: after the poller starts, two ticks fire before
either fetch resolves — contrary to the claim, two poll requests are in
flight simultaneously; and when the second tick's response (sample (9, 9))
arrives before the first tick's response (sample (1, 1)), the earlier
tick's late response overwrites the newer one: the final sample is the
first tick's, so application is by arrival order, not by tick order. -/
theorem c4_overlapping_requests_cex :
    Option.map (fun s => s.inFlight.length)
      (pollRun pollInit [PollEv.start, PollEv.tick 0, PollEv.tick 0])
    = some 2 ∧
    Option.map PollState.gazeData
      (pollRun pollInit
        [PollEv.start, PollEv.tick 0, PollEv.tick 0,
         PollEv.resp 1 (GazeResult.response true (some ⟨9, 9⟩)),
         PollEv.resp 0 (GazeResult.response true (some ⟨1, 1⟩))])
    = some (some ⟨1, 1⟩) := by
  exact ⟨rfl, rfl⟩

/-- C4 (amended): the poller has no single-flight guard and no tick-order
bookkeeping — a tick of a live interval always issues a fresh request, no
matter how many requests are already in flight, and a successful response
carrying a position is always applied on arrival, no matter what sample is
currently retained; so overlapping requests occur whenever a response is
slower than the 50 ms interval, and samples are applied last-arrival-wins
rather than last-tick-wins. -/
theorem c4_no_single_flight (s : PollState) (iid rid : Nat) (p : GazeSample)
    (htick : iid ∈ s.liveIntervals) (hrid : rid ∈ s.inFlight) :
    Option.map (fun t => t.inFlight.length) (pollStep s (PollEv.tick iid))
      = some (s.inFlight.length + 1) ∧
    Option.map PollState.gazeData
      (pollStep s (PollEv.resp rid (GazeResult.response true (some p))))
      = some (some p) := by
  constructor
  · simp [pollStep, htick, pollTickEffect]
  · simp [pollStep, hrid, applyGazeResult]

/-- C4 witness: a concrete state with a live interval, a request already in
flight and a retained sample from a newer tick. -/
theorem c4_no_single_flight_witness :
    Option.map (fun t => t.inFlight.length)
      (pollStep { pollInit with liveIntervals := [0], inFlight := [5],
                                gazeData := some ⟨9, 9⟩ } (PollEv.tick 0))
      = some ({ pollInit with liveIntervals := [0], inFlight := [5],
                              gazeData := some ⟨9, 9⟩ : PollState }.inFlight.length + 1) ∧
    Option.map PollState.gazeData
      (pollStep { pollInit with liveIntervals := [0], inFlight := [5],
                                gazeData := some ⟨9, 9⟩ }
        (PollEv.resp 5 (GazeResult.response true (some ⟨1, 1⟩))))
      = some (some ⟨1, 1⟩) :=
  c4_no_single_flight
    { pollInit with liveIntervals := [0], inFlight := [5], gazeData := some ⟨9, 9⟩ }
    0 5 ⟨1, 1⟩ (by decide) (by decide)

/-- C7 counterexample: starting the poller twice without stopping is
neither rejected nor a no-op — after two starts both intervals are live
(two concurrent polling loops), and a stop only clears the interval whose
handle is stored in the ref: interval 0 survives the stop and its tick is
still enabled, so the first loop can never be cleared again. -/
theorem c7_double_start_cex :
    Option.map (fun s => s.liveIntervals)
      (pollRun pollInit [PollEv.start, PollEv.start]) = some [1, 0] ∧
    Option.map (fun s => s.liveIntervals)
      (pollRun pollInit [PollEv.start, PollEv.start, PollEv.stop]) = some [0] ∧
    (pollRun pollInit
      [PollEv.start, PollEv.start, PollEv.stop, PollEv.tick 0]).isSome = true := by
  exact ⟨rfl, rfl, rfl⟩

/-- C7 (amended): `startGazeDataPolling` unconditionally creates a fresh
interval and overwrites the stored handle, leaving every previously created
interval live (so starting while one is running yields two concurrent
polling loops and orphans the first handle); `stopGazeDataPolling` when no
handle is stored clears no interval — it leaves the live intervals
unchanged and only resets the retained sample to none. -/
theorem c7_start_overwrites_handle (s : PollState) :
    ((startGazeDataPolling s).liveIntervals = s.nextIntervalId :: s.liveIntervals ∧
     (startGazeDataPolling s).gazeIntervalRef = some s.nextIntervalId) ∧
    (s.gazeIntervalRef = none →
      (stopGazeDataPolling s).liveIntervals = s.liveIntervals ∧
      (stopGazeDataPolling s).gazeData = none) := by
  refine ⟨⟨rfl, rfl⟩, fun h => ?_⟩
  simp [stopGazeDataPolling, h]

/-- C7 witness: the initial poller state has no handle stored. -/
theorem c7_start_overwrites_handle_witness :
    (stopGazeDataPolling pollInit).liveIntervals = pollInit.liveIntervals ∧
    (stopGazeDataPolling pollInit).gazeData = none :=
  (c7_start_overwrites_handle pollInit).2 (by decide)

/-- An activation attempt whose connect request answers `success: false`. -/
def connectFailEnv : EnterEnv :=
  { connect := CallOutcome.resp false (some "no device"),
    setImage := CallOutcome.resp true none,
    start := CallOutcome.resp true none,
    fsApiAvailable := true,
    fsRequestError := none }

/-- An activation attempt where connect and set-image succeed but the start
request answers `success: false`. -/
def startFailEnv : EnterEnv :=
  { connect := CallOutcome.resp true none,
    setImage := CallOutcome.resp true none,
    start := CallOutcome.resp false (some "tracker busy"),
    fsApiAvailable := true,
    fsRequestError := none }

/-- An activation attempt where every request succeeds. -/
def fullSuccessEnv : EnterEnv :=
  { connect := CallOutcome.resp true none,
    setImage := CallOutcome.resp true none,
    start := CallOutcome.resp true none,
    fsApiAvailable := true,
    fsRequestError := none }

/-- An activation attempt where only the set-image request answers
`success: false`. -/
def contextFailEnv : EnterEnv :=
  { connect := CallOutcome.resp true none,
    setImage := CallOutcome.resp false (some "bad context"),
    start := CallOutcome.resp true none,
    fsApiAvailable := true,
    fsRequestError := none }

/-- C5 counterexample: on a connect failure the catch block still runs
`setIsFullscreenMode(true)` (the comment in the source reads: still show
fullscreen mode even if eye tracking fails) — contrary to the claim that
full-screen is not entered, the full-screen presentation is activated. The
alert, the absent native request and the never-started poller are as the
claim says. -/
theorem c5_fullscreen_entered_on_connect_failure_cex :
    (handleEnterEyeTrackingMode connectFailEnv).isFullscreenMode = true ∧
    (handleEnterEyeTrackingMode connectFailEnv).alerted =
      some "Failed to start Eye-Tracking Mode: no device" ∧
    (handleEnterEyeTrackingMode connectFailEnv).nativeFsRequested = false ∧
    (handleEnterEyeTrackingMode connectFailEnv).pollerStarted = false := by
  decide

/-- C5 (amended): on every connect failure a user-visible alert is raised,
the native requestFullscreen API is never invoked, tracking never becomes
active and the poller is never started, and no further lifecycle request is
issued — but the internal full-screen fallback is entered: the full-screen
presentation flag is set. -/
theorem c5_connect_failure_degraded (env : EnterEnv)
    (h : env.connect.isSuccess = false) :
    (handleEnterEyeTrackingMode env).alerted.isSome = true ∧
    (handleEnterEyeTrackingMode env).nativeFsRequested = false ∧
    (handleEnterEyeTrackingMode env).isFullscreenMode = true ∧
    (handleEnterEyeTrackingMode env).isEyeTrackingActive = false ∧
    (handleEnterEyeTrackingMode env).pollerStarted = false ∧
    (handleEnterEyeTrackingMode env).setImageCalled = false := by
  cases hc : env.connect with
  | netError m => simp [handleEnterEyeTrackingMode, hc, enterFailure]
  | resp b m =>
    cases b
    · simp [handleEnterEyeTrackingMode, hc, enterFailure]
    · rw [hc] at h
      simp [CallOutcome.isSuccess] at h

/-- C5 witness: the concrete connect-failure attempt. -/
theorem c5_connect_failure_degraded_witness :
    (handleEnterEyeTrackingMode connectFailEnv).alerted.isSome = true ∧
    (handleEnterEyeTrackingMode connectFailEnv).nativeFsRequested = false ∧
    (handleEnterEyeTrackingMode connectFailEnv).isFullscreenMode = true ∧
    (handleEnterEyeTrackingMode connectFailEnv).isEyeTrackingActive = false ∧
    (handleEnterEyeTrackingMode connectFailEnv).pollerStarted = false ∧
    (handleEnterEyeTrackingMode connectFailEnv).setImageCalled = false :=
  c5_connect_failure_degraded connectFailEnv (by decide)

/-- C6 counterexample: a start failure after a successful connect throws,
and the throw lands in the same catch block as a connect failure — contrary
to the claim it is not absorbed silently: the user-visible alert is raised
with the start failure's message. -/
theorem c6_start_failure_alerts_cex :
    (handleEnterEyeTrackingMode startFailEnv).alerted =
      some "Failed to start Eye-Tracking Mode: tracker busy" := by decide

/-- C6 (amended): among lifecycle response failures after a successful
connect, only the set-image (context-bind) advisory failure is absorbed
silently — its success flag is never inspected; a start failure is
surfaced to the user through the same alert as a connect failure: with the
set-image request resolved and requestFullscreen not rejecting, the alert
is raised exactly when the start call does not succeed. -/
theorem c6_only_context_failure_silent (env : EnterEnv)
    {cm sim : Option String} {ssucc : Bool}
    (hc : env.connect = CallOutcome.resp true cm)
    (hsi : env.setImage = CallOutcome.resp ssucc sim)
    (hfs : env.fsRequestError = none) :
    (handleEnterEyeTrackingMode env).alerted.isSome = !env.start.isSuccess := by
  cases hst : env.start with
  | netError m =>
    simp [handleEnterEyeTrackingMode, hc, hsi, hst, enterFailure,
      CallOutcome.isSuccess]
  | resp b m =>
    cases b <;> cases hfa : env.fsApiAvailable <;>
      simp [handleEnterEyeTrackingMode, hc, hsi, hst, hfs, hfa, enterFailure,
        enterSuccess, CallOutcome.isSuccess]

/-- C6 witness: the concrete start-failure attempt. -/
theorem c6_only_context_failure_silent_witness :
    (handleEnterEyeTrackingMode startFailEnv).alerted.isSome =
      !startFailEnv.start.isSuccess :=
  c6_only_context_failure_silent startFailEnv rfl rfl rfl

/-- C8: in every attempt where the connect request succeeded and the
set-image request resolved to a response, the start request is issued —
whatever the set-image response's success flag and message were; a
context-bind failure never aborts the attempt before start. -/
theorem c8_start_called_regardless_of_context_result (env : EnterEnv)
    {cm sim : Option String} {ssucc : Bool}
    (hc : env.connect = CallOutcome.resp true cm)
    (hsi : env.setImage = CallOutcome.resp ssucc sim) :
    (handleEnterEyeTrackingMode env).startCalled = true := by
  cases hst : env.start with
  | netError m => simp [handleEnterEyeTrackingMode, hc, hsi, hst, enterFailure]
  | resp b m =>
    cases b
    · simp [handleEnterEyeTrackingMode, hc, hsi, hst, enterFailure]
    · cases hfa : env.fsApiAvailable
      · simp [handleEnterEyeTrackingMode, hc, hsi, hst, hfa, enterSuccess]
      · cases hfe : env.fsRequestError <;>
          simp [handleEnterEyeTrackingMode, hc, hsi, hst, hfa, hfe,
            enterFailure, enterSuccess]

/-- C8 witness: the concrete context-bind-failure attempt still calls
start. -/
theorem c8_start_called_regardless_of_context_result_witness :
    (handleEnterEyeTrackingMode contextFailEnv).startCalled = true :=
  c8_start_called_regardless_of_context_result contextFailEnv rfl rfl

/-- C9: the gaze overlay is a pure function of the tracking flag and the
latest sample — it renders nothing when the flag is off, renders nothing
when no sample exists, renders the marker exactly at the sample's
coordinates only when tracking is active, and after the teardown path has
run (the Escape-triggered exit) it renders nothing. -/
theorem c9_overlay_pure_function :
    (∀ g, renderGazeIndicator false g = none) ∧
    (∀ t, renderGazeIndicator t none = none) ∧
    (∀ t g p, renderGazeIndicator t g = some p → t = true ∧ g = some p) ∧
    (∀ s : CoordState, s.isFullscreenMode = true →
      Option.map
        (fun t => renderGazeIndicator t.isEyeTrackingActive t.poll.gazeData)
        (coordStep s CoordEv.escapeKey) = some none) := by
  refine ⟨fun g => rfl, fun t => ?_, fun t g p h => ?_, fun s h => ?_⟩
  · cases t <;> rfl
  · cases t
    · simp [renderGazeIndicator] at h
    · exact ⟨rfl, by simpa [renderGazeIndicator] using h⟩
  · simp [coordStep, h, handleExitFullscreenBegin, renderGazeIndicator]

/-- C9 witness: the marker characterization at a concrete sample, and the
overlay right after teardown from the tracking state. -/
theorem c9_overlay_pure_function_witness :
    (true = true ∧ (some (GazeSample.mk 1 2) : Option GazeSample) = some ⟨1, 2⟩) ∧
    Option.map
      (fun t => renderGazeIndicator t.isEyeTrackingActive t.poll.gazeData)
      (coordStep trackingState CoordEv.escapeKey) = some none :=
  ⟨c9_overlay_pure_function.2.2.1 true (some ⟨1, 2⟩) ⟨1, 2⟩ (by decide),
   c9_overlay_pure_function.2.2.2 trackingState (by decide)⟩

/-- C10: the native requestFullscreen call is issued only when both the
connect and the start responses succeeded; on every connect-failure or
start-failure path the native full-screen API is not invoked and only the
internal full-screen flag is set. -/
theorem c10_native_fullscreen_only_on_success (env : EnterEnv) :
    ((handleEnterEyeTrackingMode env).nativeFsRequested = true →
      env.connect.isSuccess = true ∧ env.start.isSuccess = true) ∧
    (env.connect.isSuccess = false ∨ env.start.isSuccess = false →
      (handleEnterEyeTrackingMode env).nativeFsRequested = false ∧
      (handleEnterEyeTrackingMode env).isFullscreenMode = true) := by
  obtain ⟨c, si, st, fsa, fse⟩ := env
  rcases c with m | ⟨_ | _, cm⟩ <;>
    rcases si with m2 | ⟨_ | _, sm⟩ <;>
      rcases st with m3 | ⟨_ | _, tm⟩ <;>
        rcases fsa with _ | _ <;>
          rcases fse with _ | fm <;>
            simp [handleEnterEyeTrackingMode, enterFailure, enterSuccess,
              CallOutcome.isSuccess]

/-- C10 witness: the fully successful attempt issues the native request
(and indeed connect and start succeeded), while the connect-failure
attempt is degraded: no native request, internal flag set. -/
theorem c10_native_fullscreen_only_on_success_witness :
    (fullSuccessEnv.connect.isSuccess = true ∧
     fullSuccessEnv.start.isSuccess = true) ∧
    ((handleEnterEyeTrackingMode connectFailEnv).nativeFsRequested = false ∧
     (handleEnterEyeTrackingMode connectFailEnv).isFullscreenMode = true) :=
  ⟨(c10_native_fullscreen_only_on_success fullSuccessEnv).1 (by decide),
   (c10_native_fullscreen_only_on_success connectFailEnv).2 (Or.inl (by decide))⟩
